import Mathlib

/-!
# adriconf: GPU identity and the edit session of the configurator window

A shallow embedding of `GPUInfo.cpp`, `Application.cpp` and the session code of `GUI.cpp`.

* Strings (`Glib::ustring`) are `String`, `==` on them is equality and `empty()` is equality
  with `""`; `uint16_t` values are naturals below `65536`.
* `Application_ptr` is a `std::shared_ptr<Application>`: applications live in a store
  (`GUI.heap`) and the lists hold addresses, so that an application reachable from two
  lists, or from a list and from `currentApp`, is one object.
* Dereferencing a null pointer or an `end()` iterator is undefined behaviour in the source;
  the embedding stops there with a `Fault`.
* Gtk widgets are not embedded. What a handler reads from a widget is an argument of the
  handler, message dialogs and `std::cerr` lines are recorded in `GUI.events`, and the
  construction of the option widgets in `drawApplicationOptions` is left out.
* `DriverConfiguration` and `Device` are classes of the repository whose sources are not part
  of this development. The results of the methods the session code calls on a
  `DriverConfiguration` are fields of the structure, and `Device::sortApplications` is an
  argument of the functions that reach it.
-/

namespace Adriconf

/-! ## GPUInfo.cpp -/

/-- The largest `uint16_t` plus one. -/
def uint16Size : Nat := 65536

/-- Hardware identity record (`GPUInfo`). -/
structure GPUInfo where
  pciId : String
  driverName : String
  deviceName : String
  vendorName : String
  vendorId : Nat
  deviceId : Nat
deriving DecidableEq, Repr

namespace GPUInfo

def getPciId (g : GPUInfo) : String := g.pciId

def setPciId (g : GPUInfo) (pciId : String) : GPUInfo := { g with pciId := pciId }

def getDriverName (g : GPUInfo) : String := g.driverName

def setDriverName (g : GPUInfo) (driverName : String) : GPUInfo :=
  { g with driverName := driverName }

def getDeviceName (g : GPUInfo) : String := g.deviceName

def setDeviceName (g : GPUInfo) (deviceName : String) : GPUInfo :=
  { g with deviceName := deviceName }

def getVendorName (g : GPUInfo) : String := g.vendorName

def setVendorName (g : GPUInfo) (vendorName : String) : GPUInfo :=
  { g with vendorName := vendorName }

def getVendorId (g : GPUInfo) : Nat := g.vendorId

/-- The argument is a `uint16_t`: a wider value is reduced on the way in. -/
def setVendorId (g : GPUInfo) (vendorId : Nat) : GPUInfo :=
  { g with vendorId := vendorId % uint16Size }

def getDeviceId (g : GPUInfo) : Nat := g.deviceId

/-- The argument is a `uint16_t`: a wider value is reduced on the way in. -/
def setDeviceId (g : GPUInfo) (deviceId : Nat) : GPUInfo :=
  { g with deviceId := deviceId % uint16Size }

/-- The comparison `GPUInfo::operator==`: device ids first, then vendor ids. -/
def eq (g rhs : GPUInfo) : Bool :=
  g.getDeviceId == rhs.getDeviceId && g.getVendorId == rhs.getVendorId

end GPUInfo

/-! ## Application.cpp -/

/-- One option of an application: `ApplicationOption` with its `getName`, `getValue`. -/
structure ApplicationOption where
  name : String
  value : String
deriving DecidableEq, Repr

/-- The setter `ApplicationOption::setValue`. -/
def ApplicationOption.setValue (o : ApplicationOption) (value : String) : ApplicationOption :=
  { o with value := value }

/-- An edit target (`Application`). The option objects are owned by their application. -/
structure Application where
  name : String
  executable : String
  options : List ApplicationOption
deriving DecidableEq, Repr

namespace Application

def getName (a : Application) : String := a.name

def setName (a : Application) (name : String) : Application := { a with name := name }

def getExecutable (a : Application) : String := a.executable

def setExecutable (a : Application) (executable : String) : Application :=
  { a with executable := executable }

def getOptions (a : Application) : List ApplicationOption := a.options

/-- The method `Application::addOption`: `emplace_back` on the option list. -/
def addOption (a : Application) (option : ApplicationOption) : Application :=
  { a with options := a.options ++ [option] }

/-- The method `Application::setOptions`: the list is replaced. -/
def setOptions (a : Application) (options : List ApplicationOption) : Application :=
  { a with options := options }

end Application

/-! ## The classes GUI.cpp works on -/

/-- One option of a driver's schema, with the getters `drawApplicationOptions` reads. -/
structure DriverOption where
  name : String
  description : String
  type : String
  fakeBool : Bool
  enumValues : List (String × String)
  validValueStart : Int
  validValueEnd : Int

/-- A section of a driver's schema. -/
structure Section where
  description : String
  options : List DriverOption

/-- The schema of one driver. `enumValuesForOption` and `generateApplication` are the results
of `DriverConfiguration::getEnumValuesForOption` and `DriverConfiguration::generateApplication`,
two const methods whose bodies are not in the sources at hand. -/
structure DriverConfiguration where
  driver : String
  sections : List Section
  enumValuesForOption : String → List (String × String)
  generateApplication : Application

namespace DriverConfiguration

def getDriver (d : DriverConfiguration) : String := d.driver

def getSections (d : DriverConfiguration) : List Section := d.sections

def getEnumValuesForOption (d : DriverConfiguration) (optionName : String) :
    List (String × String) :=
  d.enumValuesForOption optionName

end DriverConfiguration

/-- Address of an `Application` object: what an `Application_ptr` holds. -/
abbrev ApplicationPtr := Nat

/-- The user configuration of one driver (`Device`): the driver's identifier and the list of
`Application_ptr`. -/
structure Device where
  driver : String
  applications : List ApplicationPtr
deriving DecidableEq, Repr

namespace Device

def getDriver (d : Device) : String := d.driver

def getApplications (d : Device) : List ApplicationPtr := d.applications

/-- Modelled from the spec: `Device::addApplication`, whose body is not in the sources at
hand; the new application is appended to the driver's list. -/
def addApplication (d : Device) (application : ApplicationPtr) : Device :=
  { d with applications := d.applications ++ [application] }

end Device

/-- Undefined behaviour the session code can run into. -/
inductive Fault where
  | nullDereference
  | endDereference
deriving DecidableEq, Repr

/-- What the user gets to see: a message dialog (its primary text) or a line on `std::cerr`
(its format string). -/
inductive Event where
  | messageDialog (text : String)
  | cerr (text : String)
deriving DecidableEq, Repr

/-- The members of `GUI` the session is made of. `applicationMenu` and `notebook` say whether
the builder finds the widget of that name. -/
structure GUI where
  heap : ApplicationPtr → Application
  driverConfiguration : List DriverConfiguration
  userDefinedConfiguration : List Device
  currentApp : Option ApplicationPtr
  currentDriver : Option DriverConfiguration
  applicationMenu : Bool
  notebook : Bool
  events : List Event

/-- The type of `Device::sortApplications`, as an operation on a list of `Application_ptr`
that may read the applications behind them. -/
abbrev SortApplications := (ApplicationPtr → Application) → List ApplicationPtr → List ApplicationPtr

namespace GUI

/-- Record a dialog or a log line. -/
def emit (s : GUI) (e : Event) : GUI := { s with events := s.events ++ [e] }

/-- The applications of a device, read through the store. -/
def applicationsOf (s : GUI) (d : Device) : List Application := d.applications.map s.heap

/-- The active application, read through the store. -/
def activeApplication (s : GUI) : Option Application := s.currentApp.map s.heap

/-- Every address the session holds: the lists of all devices and `currentApp`. -/
def liveAddresses (s : GUI) : List ApplicationPtr :=
  s.currentApp.toList ++ (s.userDefinedConfiguration.map Device.applications).flatten

/-- The address handed out by the next allocation of an `Application`: one that no live
pointer holds. -/
def freshAddress (s : GUI) : ApplicationPtr := s.liveAddresses.foldr (fun a b => max (a + 1) b) 0

end GUI

/-- The position `std::find_if` stops at: the elements before the first match, the match and
the elements after it; `none` is `end()`. -/
def findIf {α : Type} (p : α → Bool) : List α → Option (List α × α × List α)
  | [] => none
  | x :: xs =>
    if p x then some ([], x, xs)
    else match findIf p xs with
      | none => none
      | some (before, y, after) => some (x :: before, y, after)

/-- The response id `Gtk::RESPONSE_DELETE_EVENT`. -/
def RESPONSE_DELETE_EVENT : Int := -4

/-- The response id `Gtk::RESPONSE_CANCEL`. -/
def RESPONSE_CANCEL : Int := -6

/-- The response id `Gtk::RESPONSE_CLOSE`. -/
def RESPONSE_CLOSE : Int := -7

/-- The response id of the dialog's Save button. -/
def RESPONSE_SAVE : Int := 50

/-- What the modal dialog of `onAddApplicationPressed` hands back: the response of `run()` and
the texts of the two entries and of the driver combo box. -/
structure AddApplicationDialog where
  result : Int
  appName : String
  appExecutable : String
  driver : String
deriving DecidableEq, Repr

namespace GUI

/-- The inner loop of `drawApplicationSelectionMenu` over the applications of one device. -/
def selectDefaultIn (driver : Device) (cd : DriverConfiguration) (s : GUI) : GUI :=
  driver.applications.foldl
    (fun st possibleApp =>
      if cd.getDriver = driver.getDriver ∧ (st.heap possibleApp).getExecutable = "" then
        { st with currentApp := some possibleApp }
      else st)
    s

/-- The outer loop of `drawApplicationSelectionMenu` over the devices. -/
def menuLoop : List Device → GUI → Except Fault GUI
  | [], s => .ok s
  | driver :: rest, s =>
    match s.currentDriver with
    | none =>
      match s.driverConfiguration.find? (fun d => d.getDriver = driver.getDriver) with
      | none => .error .endDereference
      | some foundDriver =>
        menuLoop rest (selectDefaultIn driver foundDriver { s with currentDriver := some foundDriver })
    | some cd => menuLoop rest (selectDefaultIn driver cd s)

/-- The first loop of `drawApplicationSelectionMenu`: every device sorts its applications. -/
def sortAll (sortApplications : SortApplications) (s : GUI) : List Device :=
  s.userDefinedConfiguration.map
    (fun driver => { driver with applications := sortApplications s.heap driver.applications })

/-- The method `GUI::drawApplicationSelectionMenu`. -/
def drawApplicationSelectionMenu (sortApplications : SortApplications) (s : GUI) :
    Except Fault GUI :=
  if s.applicationMenu then
    menuLoop (sortAll sortApplications s)
      { s with currentDriver := none, currentApp := none,
               userDefinedConfiguration := sortAll sortApplications s }
  else .ok s

/-- The test `drawApplicationOptions` makes for each option of the schema: is there an option
of that name among the selected application's. -/
def optionsComplete (sections : List Section) (selectedAppOptions : List ApplicationOption) :
    Bool :=
  sections.all (fun sec =>
    sec.options.all (fun option => selectedAppOptions.any (fun o => option.name = o.name)))

/-- The method `GUI::drawApplicationOptions`, as far as the session goes: the two pointers it reads and
the two complaints it can write. -/
def drawApplicationOptions (s : GUI) : Except Fault GUI :=
  match s.currentApp with
  | none => .error .nullDereference
  | some app =>
    let selectedAppOptions := (s.heap app).getOptions
    if s.notebook then
      match s.currentDriver with
      | none => .error .nullDereference
      | some cd =>
        if optionsComplete cd.getSections selectedAppOptions then .ok s
        else .ok (s.emit (.cerr "Option %1 doesn't exist in application %2. Merge failed"))
    else .ok (s.emit (.cerr "Notebook object not found in glade file!"))

/-- The two calls `onRemoveApplicationPressed` and `onAddApplicationPressed` end with:
`drawApplicationSelectionMenu()`, then `drawApplicationOptions()`. -/
def redraw (sortApplications : SortApplications) (s : GUI) : Except Fault GUI :=
  match drawApplicationSelectionMenu sortApplications s with
  | .error e => .error e
  | .ok s' => drawApplicationOptions s'

/-- The handler `GUI::onApplicationSelected`. -/
def onApplicationSelected (driverName applicationName : String) (s : GUI) : Except Fault GUI :=
  match s.currentDriver with
  | none => .error .nullDereference
  | some cd =>
    let alreadyActive : Except Fault Bool :=
      if driverName = cd.getDriver then
        match s.currentApp with
        | none => .error .nullDereference
        | some app => .ok (decide (applicationName = (s.heap app).getExecutable))
      else .ok false
    match alreadyActive with
    | .error e => .error e
    | .ok true => .ok s
    | .ok false =>
      match s.userDefinedConfiguration.find? (fun device => driverName = device.getDriver) with
      | none => .error .endDereference
      | some userSelectedDriver =>
        match userSelectedDriver.getApplications.find?
            (fun app => applicationName = (s.heap app).getExecutable) with
        | none => .ok (s.emit (.cerr "Application %1 not found "))
        | some selectedApp =>
          let s1 := { s with currentApp := some selectedApp }
          match s1.driverConfiguration.find? (fun d => d.getDriver = driverName) with
          | none => .ok (s1.emit (.cerr "Driver %1 not found "))
          | some driverSelected =>
            drawApplicationOptions { s1 with currentDriver := some driverSelected }

/-- What the four option handlers share: `currentApp->getOptions()` and the `std::find_if`
for the option named `optionName`. -/
def currentOption (optionName : String) (s : GUI) :
    Except Fault (ApplicationPtr × Option (List ApplicationOption × ApplicationOption × List ApplicationOption)) :=
  match s.currentApp with
  | none => .error .nullDereference
  | some app =>
    let eventSelectedAppOptions := (s.heap app).getOptions
    .ok (app, findIf (fun a => a.name = optionName) eventSelectedAppOptions)

/-- The statement `(*currentOption)->setValue(value)` on the application at `app`. -/
def setCurrentOption (s : GUI) (app : ApplicationPtr)
    (position : List ApplicationOption × ApplicationOption × List ApplicationOption)
    (value : String) : GUI :=
  { s with
    heap := Function.update s.heap app
      ((s.heap app).setOptions (position.1 ++ position.2.1.setValue value :: position.2.2)) }

/-- The handler `GUI::onCheckboxChanged`. -/
def onCheckboxChanged (optionName : String) (s : GUI) : Except Fault GUI :=
  match currentOption optionName s with
  | .error e => .error e
  | .ok (_, none) => .error .endDereference
  | .ok (app, some position) =>
    if position.2.1.value = "true" then .ok (setCurrentOption s app position "false")
    else .ok (setCurrentOption s app position "true")

/-- The handler `GUI::onFakeCheckBoxChanged`. -/
def onFakeCheckBoxChanged (optionName : String) (s : GUI) : Except Fault GUI :=
  match currentOption optionName s with
  | .error e => .error e
  | .ok (_, none) => .error .endDereference
  | .ok (app, some position) =>
    if position.2.1.value = "1" then .ok (setCurrentOption s app position "0")
    else .ok (setCurrentOption s app position "1")

/-- The loop of `onComboboxChanged` over the enum values: every pair whose label is the
selected text stores its raw value through `currentOption`. -/
def comboLoop (selectedOptionText : String) (app : ApplicationPtr)
    (position : Option (List ApplicationOption × ApplicationOption × List ApplicationOption)) :
    List (String × String) → GUI → Except Fault GUI
  | [], s => .ok s
  | enumValue :: rest, s =>
    if enumValue.1 = selectedOptionText then
      match position with
      | none => .error .endDereference
      | some pos => comboLoop selectedOptionText app position rest (setCurrentOption s app pos enumValue.2)
    else comboLoop selectedOptionText app position rest s

/-- The handler `GUI::onComboboxChanged`; `selectedOptionText` is the active text of the combo box
registered for the option. -/
def onComboboxChanged (optionName selectedOptionText : String) (s : GUI) : Except Fault GUI :=
  match currentOption optionName s with
  | .error e => .error e
  | .ok (app, position) =>
    match s.currentDriver with
    | none => .error .nullDereference
    | some cd => comboLoop selectedOptionText app position (cd.getEnumValuesForOption optionName) s

/-- The handler `GUI::onNumberEntryChanged`; `enteredValue` is the value of the spin button registered for
the option after the cast to `int`. -/
def onNumberEntryChanged (optionName : String) (enteredValue : Int) (s : GUI) :
    Except Fault GUI :=
  match currentOption optionName s with
  | .error e => .error e
  | .ok (_, none) => .error .endDereference
  | .ok (app, some position) => .ok (setCurrentOption s app position (toString enteredValue))

/-- The `remove_if` of `onRemoveApplicationPressed` on one device. -/
def removeIn (s : GUI) (cd : DriverConfiguration) (executable : String) (device : Device) :
    Device :=
  if device.getDriver = cd.getDriver then
    { device with applications :=
        device.applications.filter (fun app => !decide ((s.heap app).getExecutable = executable)) }
  else device

/-- The loop of `onRemoveApplicationPressed` over the devices, with the active driver `cd`,
and the dialog that follows it. -/
def removeApplications (cd : DriverConfiguration) (executable : String) (s : GUI) : GUI :=
  ({ s with userDefinedConfiguration :=
      s.userDefinedConfiguration.map (removeIn s cd executable) }).emit
    (.messageDialog "Application removed successfully.")

/-- The handler `GUI::onRemoveApplicationPressed`. The loop reads `currentDriver` once for each device, so
a null `currentDriver` goes unnoticed over an empty user configuration. -/
def onRemoveApplicationPressed (sortApplications : SortApplications) (s : GUI) :
    Except Fault GUI :=
  match s.currentApp with
  | none => .error .nullDereference
  | some app =>
    if (s.heap app).getExecutable = "" then
      .ok (s.emit (.messageDialog "The default application cannot be removed."))
    else
      match s.currentDriver with
      | some cd => redraw sortApplications (removeApplications cd (s.heap app).getExecutable s)
      | none =>
        match s.userDefinedConfiguration with
        | [] => redraw sortApplications (s.emit (.messageDialog "Application removed successfully."))
        | _ :: _ => .error .nullDereference

/-- The first loop of the Save branch: `newApplication` after it, `none` for the null pointer
it starts as. -/
def generateFor (driverText : String) (drivers : List DriverConfiguration) :
    Option Application :=
  drivers.foldl
    (fun newApplication driver =>
      if driver.getDriver = driverText then some driver.generateApplication else newApplication)
    none

/-- The body of the second loop of the Save branch on one device. -/
def appendIn (driverText : String) (newApplication : ApplicationPtr) (userConfig : Device) :
    Device :=
  if userConfig.getDriver = driverText then userConfig.addApplication newApplication
  else userConfig

/-- The Save branch of `onAddApplicationPressed` once `newApplication` is generated: name and
executable are set, every device of the chosen driver gets the pointer, and the success
dialog runs. -/
def appendApplication (dialog : AddApplicationDialog) (generated : Application) (s : GUI) :
    GUI :=
  let newApplication := s.freshAddress
  ({ s with
      heap := Function.update s.heap newApplication
        ((generated.setName dialog.appName).setExecutable dialog.appExecutable)
      userDefinedConfiguration :=
        s.userDefinedConfiguration.map (appendIn dialog.driver newApplication) }).emit
    (.messageDialog "Application successfully added.")

/-- The handler `GUI::onAddApplicationPressed`, from the return of the dialog's `run()` on. -/
def onAddApplicationPressed (sortApplications : SortApplications) (dialog : AddApplicationDialog)
    (s : GUI) : Except Fault GUI :=
  if dialog.result = RESPONSE_CLOSE ∨ dialog.result = RESPONSE_CANCEL
      ∨ dialog.result = RESPONSE_DELETE_EVENT then
    .ok s
  else if dialog.result = RESPONSE_SAVE then
    if dialog.appName = "" ∨ dialog.appExecutable = "" ∨ dialog.driver = "" then
      .ok (s.emit (.messageDialog "Validation error"))
    else
      match generateFor dialog.driver s.driverConfiguration with
      | none => .error .nullDereference
      | some generated => redraw sortApplications (appendApplication dialog generated s)
  else .ok (s.emit (.cerr "Undefined response returned by dialog: %1"))

end GUI

/-! ## Reading a session -/

namespace GUI

/-- The value the active application holds for the option named `optionName` (the first
option of that name, the one the handlers find). -/
def optionValue (optionName : String) (s : GUI) : Option String :=
  match s.currentApp with
  | none => none
  | some app =>
    match (s.heap app).getOptions.find? (fun o => o.name = optionName) with
    | none => none
    | some o => some o.value

end GUI

/-- A `Device::sortApplications` to run the examples with: a stable sort by display name,
names compared code point by code point. -/
def sortByName : SortApplications :=
  fun heap applications =>
    applications.insertionSort (fun a b => ¬ ((heap b).getName.data < (heap a).getName.data))

/-- Every device of the user configuration lists an application with the empty executable. -/
def GUI.HasDefaults (s : GUI) : Prop :=
  ∀ d ∈ s.userDefinedConfiguration, ∃ a ∈ d.getApplications, (s.heap a).getExecutable = ""

instance GUI.decidableHasDefaults (s : GUI) : Decidable s.HasDefaults := by
  unfold GUI.HasDefaults
  infer_instance

/-- A schema entry for the driver `driver` with one enum option `"vblank_mode"`. -/
def schemaOf (driver : String) (enumValues : List (String × String)) : DriverConfiguration where
  driver := driver
  sections := [{
    description := "Performance"
    options := [{
      name := "vblank_mode", description := "Synchronization with vertical refresh",
      type := "enum", fakeBool := false, enumValues := enumValues,
      validValueStart := 0, validValueEnd := 3 }] }]
  enumValuesForOption := fun optionName => if optionName = "vblank_mode" then enumValues else []
  generateApplication :=
    { name := "", executable := "", options := [{ name := "vblank_mode", value := "0" }] }

/-- A store with four applications: the defaults of two drivers, a game and a viewer. -/
def exampleHeap : ApplicationPtr → Application
  | 0 => { name := "Default", executable := "",
           options := [{ name := "vblank_mode", value := "0" },
                       { name := "fullscreen_bool", value := "false" },
                       { name := "allow_fake", value := "1" }] }
  | 1 => { name := "Default", executable := "",
           options := [{ name := "vblank_mode", value := "1" }] }
  | 2 => { name := "Game", executable := "game",
           options := [{ name := "vblank_mode", value := "0" },
                       { name := "fullscreen_bool", value := "true" }] }
  | _ => { name := "Viewer", executable := "viewer",
           options := [{ name := "vblank_mode", value := "1" }] }

/-- A session over the drivers `i965` and `radeon`, the default application of `i965`
active. -/
def exampleSession : GUI where
  heap := exampleHeap
  driverConfiguration :=
    [schemaOf "i965" [("Off", "0"), ("On", "1")], schemaOf "radeon" [("Off", "0"), ("On", "1")]]
  userDefinedConfiguration :=
    [{ driver := "i965", applications := [0, 2] }, { driver := "radeon", applications := [1, 3] }]
  currentApp := some 0
  currentDriver := some (schemaOf "i965" [("Off", "0"), ("On", "1")])
  applicationMenu := true
  notebook := true
  events := []

/-- The user configuration of `exampleSession` on a machine that has no `radeon` driver. -/
def driftSession : GUI :=
  { exampleSession with driverConfiguration := [schemaOf "i965" [("Off", "0"), ("On", "1")]] }

/-- A session on a machine without a `radeon` driver whose user configuration still has a
viewer for `radeon`, with an option of its own; the default application of `i965` is active. -/
def staleSession : GUI where
  heap := fun
    | 0 => { name := "Default", executable := "",
             options := [{ name := "vblank_mode", value := "0" }] }
    | _ => { name := "Viewer", executable := "viewer",
             options := [{ name := "radeon_only", value := "1" }] }
  driverConfiguration := [schemaOf "i965" [("Off", "0"), ("On", "1")]]
  userDefinedConfiguration :=
    [{ driver := "i965", applications := [0] }, { driver := "radeon", applications := [1] }]
  currentApp := some 0
  currentDriver := some (schemaOf "i965" [("Off", "0"), ("On", "1")])
  applicationMenu := true
  notebook := true
  events := []

/-- The names of the options of an application, in the order of the list. -/
def Application.optionNames (a : Application) : List String :=
  a.getOptions.map (fun o => o.name)

/-- The claim C13 makes about `Application::addOption` at one application and one option:
names that are pairwise distinct stay so. -/
def Application.KeepsNamesDistinct (a : Application) (o : ApplicationOption) : Prop :=
  a.optionNames.Nodup → (a.addOption o).optionNames.Nodup

end Adriconf

namespace Adriconf

/-! ## GPU identity -/

/-- C1: `GPUInfo::operator==` answers true exactly when the two records agree on `vendorId`
and on `deviceId`; `pciId` and the three names of either record play no part. -/
theorem GPUInfo.eq_iff_ids (g1 g2 : GPUInfo) :
    g1.eq g2 = true ↔ g1.vendorId = g2.vendorId ∧ g1.deviceId = g2.deviceId := by
  simp only [GPUInfo.eq, GPUInfo.getDeviceId, GPUInfo.getVendorId, Bool.and_eq_true,
    beq_iff_eq]
  exact And.comm

end Adriconf

namespace Adriconf

/-! ## `std::find_if` -/

theorem findIf_eq_none {α : Type} (p : α → Bool) (l : List α) :
    findIf p l = none ↔ ∀ x ∈ l, p x = false := by
  induction l with
  | nil => simp [findIf]
  | cons x xs ih =>
    by_cases hx : p x = true
    · simp [findIf, hx]
    · have hx2 : p x = false := by simpa using hx
      cases h : findIf p xs with
      | none => simpa [findIf, hx2, h] using ih.mp h
      | some r =>
        have : ¬ ∀ y ∈ xs, p y = false := fun hall => by
          rw [ih.mpr hall] at h; cases h
        simp only [findIf, hx2, h]
        simp only [Bool.false_eq_true, if_false, List.mem_cons, forall_eq_or_imp]
        constructor
        · intro h2; cases h2
        · intro h2; exact absurd h2.2 this

theorem findIf_eq_some {α : Type} (p : α → Bool) (l before after : List α) (y : α)
    (h : findIf p l = some (before, y, after)) :
    l = before ++ y :: after ∧ p y = true ∧ ∀ x ∈ before, p x = false := by
  induction l generalizing before with
  | nil => simp [findIf] at h
  | cons x xs ih =>
    by_cases hx : p x = true
    · simp only [findIf, hx, if_true, Option.some.injEq, Prod.mk.injEq] at h
      obtain ⟨rfl, rfl, rfl⟩ := h
      simp [hx]
    · have hx2 : p x = false := by simpa using hx
      cases hr : findIf p xs with
      | none => simp [findIf, hx2, hr] at h
      | some r =>
        obtain ⟨b, z, a⟩ := r
        simp only [findIf, hx2, hr, Bool.false_eq_true, if_false, Option.some.injEq,
          Prod.mk.injEq] at h
        obtain ⟨rfl, rfl, rfl⟩ := h
        obtain ⟨h1, h2, h3⟩ := ih b hr
        refine ⟨by simp [h1], h2, ?_⟩
        intro w hw
        rcases List.mem_cons.mp hw with rfl | hw
        · exact hx2
        · exact h3 w hw

theorem findIf_append_cons {α : Type} (p : α → Bool) (before after : List α) (y : α)
    (hy : p y = true) (hb : ∀ x ∈ before, p x = false) :
    findIf p (before ++ y :: after) = some (before, y, after) := by
  induction before with
  | nil => simp [findIf, hy]
  | cons x xs ih =>
    have hx : p x = false := hb x (List.mem_cons_self _ _)
    have := ih (fun w hw => hb w (List.mem_cons_of_mem _ hw))
    simp [findIf, hx, this]

theorem find?_append_cons {α : Type} (p : α → Bool) (before after : List α) (y : α)
    (hy : p y = true) (hb : ∀ x ∈ before, p x = false) :
    (before ++ y :: after).find? p = some y := by
  induction before with
  | nil => simp [hy]
  | cons x xs ih =>
    have hx : p x = false := hb x (List.mem_cons_self _ _)
    have := ih (fun w hw => hb w (List.mem_cons_of_mem _ hw))
    simp [List.find?, hx, this]

end Adriconf

namespace Adriconf

/-! ## The option handlers -/

theorem GUI.optionValue_eq_some (optionName v : String) (s : GUI)
    (h : s.optionValue optionName = some v) :
    ∃ app before o after, s.currentApp = some app ∧
      findIf (fun a : ApplicationOption => decide (a.name = optionName)) (s.heap app).getOptions
        = some (before, o, after) ∧ o.value = v := by
  unfold GUI.optionValue at h
  cases happ : s.currentApp with
  | none => simp [happ] at h
  | some app =>
    simp only [happ] at h
    cases hf : findIf (fun a : ApplicationOption => decide (a.name = optionName))
        (s.heap app).getOptions with
    | none =>
      have hall := (findIf_eq_none _ _).mp hf
      have : (s.heap app).getOptions.find? (fun o => decide (o.name = optionName)) = none := by
        rw [List.find?_eq_none]
        intro x hx
        simpa using hall x hx
      simp [this] at h
    | some r =>
      obtain ⟨before, o, after⟩ := r
      obtain ⟨h1, h2, h3⟩ := findIf_eq_some _ _ _ _ _ hf
      have : (s.heap app).getOptions.find? (fun o => decide (o.name = optionName)) = some o := by
        rw [h1]; exact find?_append_cons _ _ _ _ h2 h3
      simp only [this, Option.some.injEq] at h
      exact ⟨app, before, o, after, rfl, hf, h⟩

theorem GUI.optionValue_setCurrentOption (optionName v : String) (s : GUI) (app : ApplicationPtr)
    (before after : List ApplicationOption) (o : ApplicationOption)
    (happ : s.currentApp = some app)
    (hf : findIf (fun a : ApplicationOption => decide (a.name = optionName))
      (s.heap app).getOptions = some (before, o, after)) :
    (s.setCurrentOption app (before, o, after) v).currentApp = some app ∧
    findIf (fun a : ApplicationOption => decide (a.name = optionName))
      ((s.setCurrentOption app (before, o, after) v).heap app).getOptions
        = some (before, o.setValue v, after) ∧
    (s.setCurrentOption app (before, o, after) v).optionValue optionName = some v := by
  obtain ⟨_, h2, h3⟩ := findIf_eq_some _ _ _ _ _ hf
  have h2' : decide ((o.setValue v).name = optionName) = true := by
    simpa [ApplicationOption.setValue] using h2
  refine ⟨happ, ?_, ?_⟩
  · simp only [GUI.setCurrentOption, Function.update_same, Application.setOptions,
      Application.getOptions]
    exact findIf_append_cons (fun a : ApplicationOption => decide (a.name = optionName))
      before after (o.setValue v) h2' h3
  · simp only [GUI.optionValue, GUI.setCurrentOption, happ, Function.update_same,
      Application.setOptions, Application.getOptions]
    rw [find?_append_cons (fun a : ApplicationOption => decide (a.name = optionName))
      before after (o.setValue v) h2' h3]
    rfl

theorem GUI.currentOption_eq (optionName : String) (s : GUI) (app : ApplicationPtr)
    (happ : s.currentApp = some app) :
    s.currentOption optionName = .ok (app,
      findIf (fun a : ApplicationOption => decide (a.name = optionName)) (s.heap app).getOptions) := by
  simp [GUI.currentOption, happ]

/-- How `onCheckboxChanged` acts on a session whose active application has the option. -/
theorem GUI.onCheckboxChanged_eq (optionName : String) (s : GUI) (app : ApplicationPtr)
    (before after : List ApplicationOption) (o : ApplicationOption)
    (happ : s.currentApp = some app)
    (hf : findIf (fun a : ApplicationOption => decide (a.name = optionName))
      (s.heap app).getOptions = some (before, o, after)) :
    s.onCheckboxChanged optionName = .ok (s.setCurrentOption app (before, o, after)
      (if o.value = "true" then "false" else "true")) := by
  simp only [GUI.onCheckboxChanged, GUI.currentOption_eq optionName s app happ, hf]
  split <;> rfl

/-- How `onFakeCheckBoxChanged` acts on a session whose active application has the option. -/
theorem GUI.onFakeCheckBoxChanged_eq (optionName : String) (s : GUI) (app : ApplicationPtr)
    (before after : List ApplicationOption) (o : ApplicationOption)
    (happ : s.currentApp = some app)
    (hf : findIf (fun a : ApplicationOption => decide (a.name = optionName))
      (s.heap app).getOptions = some (before, o, after)) :
    s.onFakeCheckBoxChanged optionName = .ok (s.setCurrentOption app (before, o, after)
      (if o.value = "1" then "0" else "1")) := by
  simp only [GUI.onFakeCheckBoxChanged, GUI.currentOption_eq optionName s app happ, hf]
  split <;> rfl

/-- C8: on an option of the active application whose value is `v`, `onCheckboxChanged` returns,
keeps the active application, turns "false" into "true" and "true" into "false", and a second
invocation brings a value "true" or "false" back. -/
theorem GUI.onCheckboxChanged_toggle (optionName v : String) (s : GUI)
    (h : s.optionValue optionName = some v) :
    ∃ s', s.onCheckboxChanged optionName = .ok s' ∧ s'.currentApp = s.currentApp ∧
      (v = "false" → s'.optionValue optionName = some "true") ∧
      (v = "true" → s'.optionValue optionName = some "false") ∧
      (v = "true" ∨ v = "false" →
        ∃ s'', s'.onCheckboxChanged optionName = .ok s'' ∧ s''.currentApp = s.currentApp ∧
          s''.optionValue optionName = some v) := by
  obtain ⟨app, before, o, after, happ, hf, hv⟩ := GUI.optionValue_eq_some optionName v s h
  subst hv
  have h1 := GUI.onCheckboxChanged_eq optionName s app before after o happ hf
  obtain ⟨g1, g2, g3⟩ := GUI.optionValue_setCurrentOption optionName
    (if o.value = "true" then "false" else "true") s app before after o happ hf
  refine ⟨_, h1, g1.trans happ.symm, ?_, ?_, ?_⟩
  · intro hv; rw [g3]; simp [hv]
  · intro hv; rw [g3]; simp [hv]
  · intro hv
    have h2 := GUI.onCheckboxChanged_eq optionName _ app before after _ g1 g2
    obtain ⟨k1, _, k3⟩ := GUI.optionValue_setCurrentOption optionName
      (if (o.setValue (if o.value = "true" then "false" else "true")).value = "true"
        then "false" else "true") _ app before after _ g1 g2
    refine ⟨_, h2, k1.trans happ.symm, ?_⟩
    rw [k3]
    rcases hv with hv | hv <;> simp [hv, ApplicationOption.setValue]

/-- C8, at a session: the default application of `i965` has `fullscreen_bool` at "false". -/
theorem GUI.onCheckboxChanged_toggle_witness :
    exampleSession.optionValue "fullscreen_bool" = some "false" ∧
    ∃ s', exampleSession.onCheckboxChanged "fullscreen_bool" = .ok s' ∧
      s'.currentApp = exampleSession.currentApp ∧
      ("false" = "false" → s'.optionValue "fullscreen_bool" = some "true") ∧
      ("false" = "true" → s'.optionValue "fullscreen_bool" = some "false") ∧
      ("false" = "true" ∨ "false" = "false" →
        ∃ s'', s'.onCheckboxChanged "fullscreen_bool" = .ok s'' ∧
          s''.currentApp = exampleSession.currentApp ∧
          s''.optionValue "fullscreen_bool" = some "false") :=
  ⟨by decide, GUI.onCheckboxChanged_toggle "fullscreen_bool" "false" exampleSession (by decide)⟩

/-- C9: on an option of the active application whose value is `v`, `onFakeCheckBoxChanged`
returns, keeps the active application, turns "1" into "0" and "0" into "1", and whatever `v`
is the value it leaves is "0" or "1". -/
theorem GUI.onFakeCheckBoxChanged_toggle (optionName v : String) (s : GUI)
    (h : s.optionValue optionName = some v) :
    ∃ s', s.onFakeCheckBoxChanged optionName = .ok s' ∧ s'.currentApp = s.currentApp ∧
      (v = "1" → s'.optionValue optionName = some "0") ∧
      (v = "0" → s'.optionValue optionName = some "1") ∧
      (s'.optionValue optionName = some "0" ∨ s'.optionValue optionName = some "1") := by
  obtain ⟨app, before, o, after, happ, hf, hv⟩ := GUI.optionValue_eq_some optionName v s h
  subst hv
  have h1 := GUI.onFakeCheckBoxChanged_eq optionName s app before after o happ hf
  obtain ⟨g1, _, g3⟩ := GUI.optionValue_setCurrentOption optionName
    (if o.value = "1" then "0" else "1") s app before after o happ hf
  refine ⟨_, h1, g1.trans happ.symm, ?_, ?_, ?_⟩
  · intro hv; rw [g3]; simp [hv]
  · intro hv; rw [g3]; simp [hv]
  · rw [g3]
    by_cases hv : o.value = "1" <;> simp [hv]

/-- C9, at a session: the default application of `i965` has `allow_fake` at "1". -/
theorem GUI.onFakeCheckBoxChanged_toggle_witness :
    exampleSession.optionValue "allow_fake" = some "1" ∧
    ∃ s', exampleSession.onFakeCheckBoxChanged "allow_fake" = .ok s' ∧
      s'.currentApp = exampleSession.currentApp ∧
      ("1" = "1" → s'.optionValue "allow_fake" = some "0") ∧
      ("1" = "0" → s'.optionValue "allow_fake" = some "1") ∧
      (s'.optionValue "allow_fake" = some "0" ∨ s'.optionValue "allow_fake" = some "1") :=
  ⟨by decide, GUI.onFakeCheckBoxChanged_toggle "allow_fake" "1" exampleSession (by decide)⟩

end Adriconf

namespace Adriconf

/-- C3: with the default application active, `onRemoveApplicationPressed` shows the rejection
and returns; the application lists, the applications, the active driver and the active
application are what they were. -/
theorem GUI.onRemoveApplicationPressed_default (sortApplications : SortApplications) (s : GUI)
    (app : ApplicationPtr) (happ : s.currentApp = some app)
    (hdefault : (s.heap app).getExecutable = "") :
    ∃ s', s.onRemoveApplicationPressed sortApplications = .ok s' ∧
      s'.events = s.events ++ [.messageDialog "The default application cannot be removed."] ∧
      s'.userDefinedConfiguration = s.userDefinedConfiguration ∧ s'.heap = s.heap ∧
      s'.currentDriver = s.currentDriver ∧ s'.currentApp = s.currentApp := by
  refine ⟨s.emit (.messageDialog "The default application cannot be removed."), ?_,
    rfl, rfl, rfl, rfl, rfl⟩
  simp [GUI.onRemoveApplicationPressed, happ, hdefault]

/-- C3, at a session whose active application is the default of `i965`. -/
theorem GUI.onRemoveApplicationPressed_default_witness :
    exampleSession.currentApp = some 0 ∧ (exampleSession.heap 0).getExecutable = "" ∧
    ∃ s', exampleSession.onRemoveApplicationPressed sortByName = .ok s' ∧
      s'.events = exampleSession.events
        ++ [.messageDialog "The default application cannot be removed."] ∧
      s'.userDefinedConfiguration = exampleSession.userDefinedConfiguration ∧
      s'.heap = exampleSession.heap ∧
      s'.currentDriver = exampleSession.currentDriver ∧
      s'.currentApp = exampleSession.currentApp :=
  ⟨rfl, rfl, GUI.onRemoveApplicationPressed_default sortByName exampleSession 0 rfl rfl⟩

/-- What `onApplicationSelected` does when the application lookup misses: the complaint, and
nothing else. -/
theorem GUI.onApplicationSelected_application_miss (driverName applicationName : String)
    (s : GUI) (cd : DriverConfiguration) (app : ApplicationPtr) (userSelectedDriver : Device)
    (hcd : s.currentDriver = some cd) (happ : s.currentApp = some app)
    (hother : ¬ (driverName = cd.getDriver ∧ applicationName = (s.heap app).getExecutable))
    (hdevice : s.userDefinedConfiguration.find? (fun device => driverName = device.getDriver)
      = some userSelectedDriver)
    (hmiss : userSelectedDriver.getApplications.find?
      (fun a => applicationName = (s.heap a).getExecutable) = none) :
    s.onApplicationSelected driverName applicationName
      = .ok (s.emit (.cerr "Application %1 not found ")) := by
  unfold GUI.onApplicationSelected
  simp only [hcd, happ]
  by_cases hd : driverName = cd.getDriver
  · subst hd
    have hne : ¬ applicationName = (s.heap app).getExecutable := fun h => hother ⟨rfl, h⟩
    simp [hne, hdevice, hmiss]
  · simp [hd, hdevice, hmiss]

/-- C5, where the code leaves it: the user configuration names `radeon`, the schema does not.
Selecting the viewer of `radeon` finds the application, misses the driver and returns after
the complaint with the viewer as `currentApp` and `i965` still as `currentDriver`. -/
theorem GUI.onApplicationSelected_driver_miss :
    (driftSession.driverConfiguration.find? (fun d => d.getDriver = "radeon")).isNone = true ∧
    driftSession.currentApp = some 0 ∧
    ∃ s', driftSession.onApplicationSelected "radeon" "viewer" = .ok s' ∧
      s'.events = [.cerr "Driver %1 not found "] ∧ s'.currentApp = some 3 ∧
      s'.currentDriver.map DriverConfiguration.getDriver = some "i965" :=
  ⟨rfl, rfl, _, rfl, rfl, rfl, rfl⟩

/-- C6: the Save branch of `onAddApplicationPressed` with an empty name, executable or driver
text shows the validation error and returns; the application lists, the applications, the
active driver and the active application are what they were. -/
theorem GUI.onAddApplicationPressed_validation (sortApplications : SortApplications)
    (dialog : AddApplicationDialog) (s : GUI) (hsave : dialog.result = RESPONSE_SAVE)
    (hempty : dialog.appName = "" ∨ dialog.appExecutable = "" ∨ dialog.driver = "") :
    ∃ s', s.onAddApplicationPressed sortApplications dialog = .ok s' ∧
      s'.events = s.events ++ [.messageDialog "Validation error"] ∧
      s'.userDefinedConfiguration = s.userDefinedConfiguration ∧ s'.heap = s.heap ∧
      s'.currentDriver = s.currentDriver ∧ s'.currentApp = s.currentApp := by
  refine ⟨s.emit (.messageDialog "Validation error"), ?_, rfl, rfl, rfl, rfl, rfl⟩
  have h1 : ¬ (RESPONSE_SAVE = RESPONSE_CLOSE ∨ RESPONSE_SAVE = RESPONSE_CANCEL
      ∨ RESPONSE_SAVE = RESPONSE_DELETE_EVENT) := by decide
  simp only [GUI.onAddApplicationPressed, hsave, h1, hempty, if_true, if_false]

/-- C6, at a dialog saved with an empty executable. -/
theorem GUI.onAddApplicationPressed_validation_witness :
    (50 : Int) = RESPONSE_SAVE ∧ ("Quake" = "" ∨ "" = "" ∨ "radeon" = "") ∧
    ∃ s', exampleSession.onAddApplicationPressed sortByName ⟨50, "Quake", "", "radeon"⟩ = .ok s' ∧
      s'.events = exampleSession.events ++ [.messageDialog "Validation error"] ∧
      s'.userDefinedConfiguration = exampleSession.userDefinedConfiguration ∧
      s'.heap = exampleSession.heap ∧
      s'.currentDriver = exampleSession.currentDriver ∧
      s'.currentApp = exampleSession.currentApp :=
  ⟨rfl, Or.inr (Or.inl rfl),
    GUI.onAddApplicationPressed_validation sortByName ⟨50, "Quake", "", "radeon"⟩ exampleSession
      rfl (Or.inr (Or.inl rfl))⟩

/-! ## Redrawing the application menu -/

/-- What the handlers do when the active application has no option of the name: the three
that write at once dereference `end()`, and so does `onComboboxChanged` at the first enum
value carrying the selected text. -/
theorem GUI.option_miss (optionName label : String) (n : Int) (s : GUI) (app : ApplicationPtr)
    (cd : DriverConfiguration) (happ : s.currentApp = some app)
    (hcd : s.currentDriver = some cd)
    (hmiss : ∀ o ∈ (s.heap app).getOptions, o.name ≠ optionName)
    (hlabel : ∃ pair ∈ cd.getEnumValuesForOption optionName, pair.1 = label) :
    s.onCheckboxChanged optionName = .error .endDereference ∧
    s.onFakeCheckBoxChanged optionName = .error .endDereference ∧
    s.onNumberEntryChanged optionName n = .error .endDereference ∧
    s.onComboboxChanged optionName label = .error .endDereference := by
  have hf : findIf (fun a : ApplicationOption => decide (a.name = optionName))
      (s.heap app).getOptions = none := by
    rw [findIf_eq_none]
    intro o ho
    simpa using hmiss o ho
  refine ⟨?_, ?_, ?_, ?_⟩
  · simp only [GUI.onCheckboxChanged, GUI.currentOption_eq optionName s app happ, hf]
  · simp only [GUI.onFakeCheckBoxChanged, GUI.currentOption_eq optionName s app happ, hf]
  · simp only [GUI.onNumberEntryChanged, GUI.currentOption_eq optionName s app happ, hf]
  · simp only [GUI.onComboboxChanged, GUI.currentOption_eq optionName s app happ, hf, hcd]
    obtain ⟨pair, hp, hl⟩ := hlabel
    generalize cd.getEnumValuesForOption optionName = enumValues at hp
    induction enumValues with
    | nil => cases hp
    | cons e rest ih =>
      by_cases he : e.1 = label
      · simp only [GUI.comboLoop, he, if_true]
      · simp only [GUI.comboLoop, he, if_false]
        rcases List.mem_cons.mp hp with rfl | hp
        · exact absurd hl he
        · exact ih hp

/-- C12, where the code leaves it: selecting the viewer of `radeon` in `staleSession` makes it
the active application and returns before the option widgets are drawn again, so the widgets
of `vblank_mode` stay while the active application has no option of that name. Each of the
four handlers then finds `end()` and dereferences it, which the embedding records as a fault
and not as a reported error; for a text no enum value carries `onComboboxChanged` returns
without a word. -/
theorem GUI.option_miss_dereferences :
    ∃ s', staleSession.onApplicationSelected "radeon" "viewer" = .ok s' ∧
      s'.currentApp = some 1 ∧ s'.optionValue "vblank_mode" = none ∧
      s'.onCheckboxChanged "vblank_mode" = .error .endDereference ∧
      s'.onFakeCheckBoxChanged "vblank_mode" = .error .endDereference ∧
      s'.onNumberEntryChanged "vblank_mode" 1 = .error .endDereference ∧
      s'.onComboboxChanged "vblank_mode" "On" = .error .endDereference ∧
      s'.onComboboxChanged "vblank_mode" "Maybe" = .ok s' :=
  ⟨_, rfl, rfl, by decide, rfl, rfl, rfl, rfl, rfl⟩

/-! ## Adding an option -/

/-- C13 as stated fails: an application with the option `vblank_mode` takes a second option
of that name. -/
theorem Application.keepsNamesDistinct_fails :
    ¬ (exampleHeap 1).KeepsNamesDistinct { name := "vblank_mode", value := "0" } := by
  intro h
  have h2 := h (by decide)
  revert h2
  decide

/-- C13, amended: `addOption` puts the option at the end of the list whatever its name, so
the names after it are pairwise distinct exactly when they were before and the name of the
new option is not among them. -/
theorem Application.addOption_optionNames (a : Application) (o : ApplicationOption) :
    (a.addOption o).getOptions = a.getOptions ++ [o] ∧
    ((a.addOption o).optionNames.Nodup ↔ a.optionNames.Nodup ∧ o.name ∉ a.optionNames) := by
  refine ⟨rfl, ?_⟩
  simp only [Application.optionNames, Application.addOption, Application.getOptions,
    List.map_append, List.map_cons, List.map_nil]
  rw [List.nodup_append]
  simp only [List.nodup_cons, List.not_mem_nil, not_false_eq_true, List.nodup_nil, and_self,
    true_and, List.disjoint_singleton]

/-! ## The lists after a remove -/

end Adriconf
